import Mathlib

/-!
# topolvm: capacity admission (lvmd) and the Backup reconciler

A shallow embedding of `lvmd/lvservice.go` (CreateLV, RemoveLV, ResizeLV,
CreateBackup) and of `controllers/backup_controller.go` (Reconcile and the
event filter), followed by the properties proved about them.

Conventions of the embedding.
* A Go function with side effects returns its result together with the list
  of the externally visible calls it made, in order.
* The outcomes of external collaborators (device-class mapper, volume-group
  accessor, API client, script runner) are inputs of the embedding.
* `uint64` values are natural numbers; the shift and the subtraction are
  taken modulo `2 ^ 64`.
* A pointer field is an `Option`; dereferencing `nil` and indexing past the
  end of a slice end the call with a run-time panic.
-/

set_option autoImplicit false

/-! ## gRPC status codes and Go errors -/

namespace codes

/-- The gRPC status codes used by the volume service. -/
inductive Code where
  | NotFound
  | Internal
  | ResourceExhausted
  | OutOfRange
  deriving DecidableEq, Repr

end codes

/-- A Go `error` as returned by a service method: `code = some c` for an
error built with `status.Error(f)`, `none` for an error passed on as is. -/
structure GoError where
  code : Option codes.Code
  msg : String
  deriving DecidableEq, Repr

namespace status

/-- Go `status.Error(c, msg)` (and `status.Errorf` once the text is formatted). -/
def Error (c : codes.Code) (msg : String) : GoError := ⟨some c, msg⟩

end status

/-! ## 64-bit unsigned arithmetic -/

/-- Go `x << 30` on `uint64`. -/
def shl30 (x : Nat) : Nat := (x * 2 ^ 30) % 2 ^ 64

/-- Go `x >> 30` on `uint64`. -/
def shr30 (x : Nat) : Nat := x / 2 ^ 30

/-- Go `a - b` on `uint64` (wraps around below zero). -/
def sub64 (a b : Nat) : Nat := (a + 2 ^ 64 - b) % 2 ^ 64

/-! ## Protocol messages (package `proto`) -/

namespace proto

/-- Message `DataSource_S3`. -/
structure DataSource_S3 where
  Path : String
  Endpoint : String
  VerifyTls : Bool
  HttpProxy : String
  HttpsProxy : String
  AccessKeyId : String
  SecretAccessKey : String
  SessionToken : String
  EncryptionKey : String
  deriving DecidableEq, Repr

/-- Message `DataSource`; its `Type` is the S3 variant. -/
structure DataSource where
  SynchronousRestore : Bool
  S3 : DataSource_S3
  deriving DecidableEq, Repr

/-- Message `Backup`. -/
structure Backup where
  Name : String
  VolumeHandle : String
  DataSource : Option DataSource
  deriving DecidableEq, Repr

/-- Modelled from the spec: the generated enum `proto.StateType` is not part of
the sources at hand; the spec gives the tri-state
`InProgress`, `Error`, `Complete`. -/
inductive StateType where
  | INPROGRESS
  | ERROR
  | COMPLETE
  deriving DecidableEq, Repr

/-- Message `BackupState`. -/
structure BackupState where
  Name : String
  State : StateType
  Msg : String
  deriving DecidableEq, Repr

/-- Message `CreateBackupRequest`; `Backup` is a message field, hence a pointer. -/
structure CreateBackupRequest where
  Backup : Option Backup
  deriving DecidableEq, Repr

/-- Message `CreateBackupResponse`. -/
structure CreateBackupResponse where
  BackupState : BackupState
  deriving DecidableEq, Repr

/-- Message `CreateLVRequest`; the generated code declares `SizeGb` as `uint64`,
like the byte counts `Free()` and `Size()` of the accessor. -/
structure CreateLVRequest where
  Name : String
  DeviceClass : String
  SizeGb : Nat
  Tags : List String
  DataSource : Option DataSource
  deriving DecidableEq, Repr

/-- Message `LogicalVolume`. -/
structure LogicalVolume where
  Name : String
  SizeGb : Nat
  DevMajor : Nat
  DevMinor : Nat
  deriving DecidableEq, Repr

/-- Message `CreateLVResponse`. -/
structure CreateLVResponse where
  Volume : LogicalVolume
  deriving DecidableEq, Repr

/-- Message `RemoveLVRequest`. -/
structure RemoveLVRequest where
  Name : String
  DeviceClass : String
  deriving DecidableEq, Repr

/-- Message `ResizeLVRequest`; `SizeGb` is a `uint64`. -/
structure ResizeLVRequest where
  Name : String
  DeviceClass : String
  SizeGb : Nat
  deriving DecidableEq, Repr

/-- Message `Empty`. -/
structure Empty where
  deriving DecidableEq, Repr

end proto

/-! ## Script configuration (packages `backup`, `restore`) -/

namespace backup

/-- Where to find the backup script and its work directory. -/
structure BaseConf where
  ScriptPath : String
  Workdir : String
  deriving DecidableEq, Repr

end backup

namespace restore

/-- Where to find the restore script. -/
structure BaseConf where
  ScriptPath : String
  deriving DecidableEq, Repr

end restore

/-! ## The volume-group accessor (package `command`, an external collaborator) -/

namespace command

/-- A logical volume as the accessor reports it: `Name()`, `Size()` in bytes,
`MajorNumber()`, `MinorNumber()`. -/
structure LogicalVolume where
  name : String
  size : Nat
  devMajor : Nat
  devMinor : Nat
  deriving DecidableEq, Repr

/-- The error of `FindVolume`: the sentinel `ErrNotFound` or any other error. -/
inductive FindError where
  | ErrNotFound
  | other (msg : String)
  deriving DecidableEq, Repr

/-- The text `err.Error()` of a `FindError`. -/
def FindError.Error : FindError → String
  | .ErrNotFound => "not found"
  | .other msg => msg

/-- A volume group: the outcome of each accessor call is an input. `Remove`
and `Resize` are the methods of the group's logical volumes. -/
structure VolumeGroup where
  Free : Except String Nat
  ListVolumes : Except String (List LogicalVolume)
  FindVolume : String → Except FindError LogicalVolume
  CreateVolume : String → Nat → List String → Except String LogicalVolume
  CreateVolumeFromSource :
    String → Nat → List String → proto.DataSource → restore.BaseConf → Except String LogicalVolume
  Remove : LogicalVolume → Except String Unit
  Resize : LogicalVolume → Nat → Except String Unit

end command

/-! ## The volume service (package `lvmd`) -/

namespace lvmd

/-- A device class: a name routed to a volume group. -/
structure DeviceClass where
  Name : String
  VolumeGroup : String
  deriving DecidableEq, Repr

/-- The calls of the volume service that change the outside world. -/
inductive Effect where
  | CreateVolume (name : String) (size : Nat) (tags : List String)
  | CreateVolumeFromSource (name : String) (size : Nat) (tags : List String)
      (src : proto.DataSource)
  | Remove (lv : command.LogicalVolume)
  | Resize (lv : command.LogicalVolume) (size : Nat)
  | notifyFunc
  deriving DecidableEq, Repr

/-- The receiver `lvService`. `mapper` is `DeviceClassManager.DeviceClass`,
`FindVolumeGroup` is `command.FindVolumeGroup`, `notifyFunc` tells whether the
callback is non-nil, `CreateBackup` is the script runner `command.CreateBackup`. -/
structure lvService where
  mapper : String → Except String DeviceClass
  FindVolumeGroup : String → Except GoError command.VolumeGroup
  notifyFunc : Bool
  CreateBackup : Option proto.Backup → backup.BaseConf → Except String proto.StateType
  backup : backup.BaseConf
  restore : restore.BaseConf

/-- Method `notify`: calls the callback unless it is nil. -/
def lvService.notify (s : lvService) : List Effect :=
  if s.notifyFunc then [Effect.notifyFunc] else []

/-- Method `CreateLV`. -/
def CreateLV (s : lvService) (req : proto.CreateLVRequest) :
    Except GoError proto.CreateLVResponse × List Effect :=
  match s.mapper req.DeviceClass with
  | .error err => (.error (status.Error .NotFound (err ++ ": " ++ req.DeviceClass)), [])
  | .ok dc =>
  match s.FindVolumeGroup dc.VolumeGroup with
  | .error err => (.error err, [])
  | .ok vg =>
  let requested := shl30 req.SizeGb
  match vg.Free with
  | .error err => (.error (status.Error .Internal err), [])
  | .ok free =>
  if free < requested then
    (.error (status.Error .ResourceExhausted
      ("no enough space left on VG: free=" ++ toString free ++ ", requested=" ++ toString requested)), [])
  else
    let created : Except String command.LogicalVolume × List Effect :=
      match req.DataSource with
      | some dataSource =>
        (vg.CreateVolumeFromSource req.Name requested req.Tags dataSource s.restore,
          [Effect.CreateVolumeFromSource req.Name requested req.Tags dataSource])
      | none =>
        (vg.CreateVolume req.Name requested req.Tags,
          [Effect.CreateVolume req.Name requested req.Tags])
    match created.1 with
    | .error err => (.error (status.Error .Internal err), created.2)
    | .ok lv =>
      (.ok { Volume := { Name := lv.name, SizeGb := shr30 lv.size,
                         DevMajor := lv.devMajor, DevMinor := lv.devMinor } },
        created.2 ++ s.notify)

/-- The `for _, lv := range lvs` loop of `RemoveLV`: skip while the name
differs; on the first match call `Remove`, then either return the error or
notify and leave the loop. -/
def RemoveLV.loop (s : lvService) (vg : command.VolumeGroup) (name : String) :
    List command.LogicalVolume → Except GoError proto.Empty × List Effect
  | [] => (.ok {}, [])
  | lv :: rest =>
    if lv.name ≠ name then RemoveLV.loop s vg name rest
    else
      match vg.Remove lv with
      | .error err => (.error (status.Error .Internal err), [Effect.Remove lv])
      | .ok _ => (.ok {}, [Effect.Remove lv] ++ s.notify)

/-- Method `RemoveLV`. -/
def RemoveLV (s : lvService) (req : proto.RemoveLVRequest) :
    Except GoError proto.Empty × List Effect :=
  match s.mapper req.DeviceClass with
  | .error err => (.error (status.Error .NotFound (err ++ ": " ++ req.DeviceClass)), [])
  | .ok dc =>
  match s.FindVolumeGroup dc.VolumeGroup with
  | .error err => (.error err, [])
  | .ok vg =>
  match vg.ListVolumes with
  | .error err => (.error (status.Error .Internal err), [])
  | .ok lvs => RemoveLV.loop s vg req.Name lvs

/-- Method `ResizeLV`. -/
def ResizeLV (s : lvService) (req : proto.ResizeLVRequest) :
    Except GoError proto.Empty × List Effect :=
  match s.mapper req.DeviceClass with
  | .error err => (.error (status.Error .NotFound (err ++ ": " ++ req.DeviceClass)), [])
  | .ok dc =>
  match s.FindVolumeGroup dc.VolumeGroup with
  | .error err => (.error err, [])
  | .ok vg =>
  match vg.FindVolume req.Name with
  | .error .ErrNotFound =>
    (.error (status.Error .NotFound ("logical volume " ++ req.Name ++ " is not found")), [])
  | .error err => (.error (status.Error .Internal err.Error), [])
  | .ok lv =>
  let requested := shl30 req.SizeGb
  let current := lv.size
  if requested < current then
    (.error (status.Error .OutOfRange "shrinking volume size is not allowed"), [])
  else
    match vg.Free with
    | .error err => (.error (status.Error .Internal err), [])
    | .ok free =>
    if free < sub64 requested current then
      (.error (status.Error .ResourceExhausted
        ("no enough space left on VG: free=" ++ toString free ++ ", requested="
          ++ toString (sub64 requested current))), [])
    else
      match vg.Resize lv requested with
      | .error err => (.error (status.Error .Internal err), [Effect.Resize lv requested])
      | .ok _ => (.ok {}, [Effect.Resize lv requested] ++ s.notify)

/-- Method `CreateBackup`: `none` is a run-time panic (nil pointer
dereference at `req.Backup.Name`), `some (resp, err)` is a normal return. -/
def CreateBackup (s : lvService) (req : proto.CreateBackupRequest) :
    Option (proto.CreateBackupResponse × Option GoError) :=
  let backupState : proto.BackupState := { Name := "", State := .ERROR, Msg := "" }
  match s.CreateBackup req.Backup s.backup with
  | .error err =>
    match req.Backup with
    | none => none
    | some b => some ({ BackupState := { backupState with Msg := err, State := .ERROR, Name := b.Name } }, none)
  | .ok st =>
    match req.Backup with
    | none => none
    | some b => some ({ BackupState := { backupState with Msg := "", State := st, Name := b.Name } }, none)

/-- The result is a success (`err == nil`). -/
def succeeded {α : Type} (r : Except GoError α × List Effect) : Bool :=
  match r.1 with
  | .ok _ => true
  | .error _ => false

/-- The result is an error carrying the gRPC code `c`. -/
def failedWith {α : Type} (c : codes.Code) (r : Except GoError α × List Effect) : Bool :=
  match r.1 with
  | .ok _ => false
  | .error e => decide (e.code = some c)

/-- The volumes on which `Remove` was called, in call order. -/
def removed : List Effect → List command.LogicalVolume
  | [] => []
  | Effect.Remove lv :: rest => lv :: removed rest
  | _ :: rest => removed rest

end lvmd

/-! ## Kubernetes objects (package `corev1`), as far as the reconciler reads them -/

namespace corev1

/-- The CSI source of a persistent volume. -/
structure CSIPersistentVolumeSource where
  Driver : String
  VolumeHandle : String
  deriving DecidableEq, Repr

/-- One requirement of a node-selector term. -/
structure NodeSelectorRequirement where
  Key : String
  Operator : String
  Values : List String
  deriving DecidableEq, Repr

/-- One node-selector term. -/
structure NodeSelectorTerm where
  MatchExpressions : List NodeSelectorRequirement
  deriving DecidableEq, Repr

/-- A node selector. -/
structure NodeSelector where
  NodeSelectorTerms : List NodeSelectorTerm
  deriving DecidableEq, Repr

/-- The node affinity of a volume; `Required` is a pointer. -/
structure VolumeNodeAffinity where
  Required : Option NodeSelector
  deriving DecidableEq, Repr

/-- The volume mode `Filesystem`. -/
def PersistentVolumeFilesystem : String := "Filesystem"

/-- The volume mode `Block`. -/
def PersistentVolumeBlock : String := "Block"

/-- The spec of a persistent volume; `CSI`, `VolumeMode` and `NodeAffinity`
are pointers. -/
structure PersistentVolumeSpec where
  CSI : Option CSIPersistentVolumeSource
  VolumeMode : Option String
  NodeAffinity : Option VolumeNodeAffinity
  deriving DecidableEq, Repr

/-- A persistent volume. -/
structure PersistentVolume where
  Name : String
  Spec : PersistentVolumeSpec
  deriving DecidableEq, Repr

/-- The spec of a claim: the name of the bound volume. -/
structure PersistentVolumeClaimSpec where
  VolumeName : String
  deriving DecidableEq, Repr

/-- A persistent volume claim. -/
structure PersistentVolumeClaim where
  Name : String
  Namespace : String
  Spec : PersistentVolumeClaimSpec
  deriving DecidableEq, Repr

/-- A secret: `Data` is a `map[string][]byte`. -/
structure Secret where
  Data : List (String × String)
  deriving DecidableEq, Repr

/-- Go `string(secret.Data[key])`: the empty string for a missing key. -/
def Secret.get (s : Secret) (key : String) : String :=
  match s.Data.lookup key with
  | some v => v
  | none => ""

end corev1

/-! ## The Backup resource (package `topolvmv1`, `api/v1`) -/

namespace topolvmv1

/-- Go `type state string`. -/
abbrev state := String

/-- State `InProgress`. -/
def InProgress : state := "InProgress"

/-- State `Pending`. -/
def Pending : state := "Pending"

/-- State `Error`. -/
def Error : state := "Error"

/-- State `Complete`. -/
def Complete : state := "Complete"

/-- How to access an S3 bucket. -/
structure S3 where
  Path : String
  Secret : String
  Endpoint : String
  VerifyTLS : Bool
  HTTPProxy : String
  HTTPSProxy : String
  deriving DecidableEq, Repr

/-- The spec of a Backup. -/
structure BackupSpec where
  BackupStorageType : String
  S3 : S3
  Kind : String
  Name : String
  deriving DecidableEq, Repr

/-- The observed state of a Backup. -/
structure BackupStatus where
  State : state
  Message : String
  deriving DecidableEq, Repr

/-- The Backup resource; `Name` and `Namespace` come from its object meta. -/
structure Backup where
  Name : String
  Namespace : String
  Spec : BackupSpec
  Status : BackupStatus
  deriving DecidableEq, Repr

end topolvmv1

/-! ## The Backup reconciler (package `controllers`) -/

namespace strings

/-- Go `strings.ToLower`, on the ASCII letters (the only ones that can lower
to the letters of `pvc`). -/
def ToLower (s : String) : String := String.mk (s.data.map Char.toLower)

end strings

namespace fmt

/-- Go `fmt.Sprintf("%s: %s", a, b)`. -/
def Sprintf (a b : String) : String := a ++ ": " ++ b

end fmt

namespace event

/-- A creation event. -/
structure CreateEvent where
  Object : topolvmv1.Backup
  deriving DecidableEq, Repr

/-- A deletion event. -/
structure DeleteEvent where
  Object : topolvmv1.Backup
  DeleteStateUnknown : Bool
  deriving DecidableEq, Repr

/-- An update event. -/
structure UpdateEvent where
  ObjectOld : topolvmv1.Backup
  ObjectNew : topolvmv1.Backup
  deriving DecidableEq, Repr

/-- A generic event. -/
structure GenericEvent where
  Object : topolvmv1.Backup
  deriving DecidableEq, Repr

end event

namespace controllers

/-- An error of the API client: `IsNotFound` is `apierrs.IsNotFound(err)`,
`Error` is the text `err.Error()`. -/
structure ApiError where
  IsNotFound : Bool
  Error : String
  deriving DecidableEq, Repr

/-- Go `types.NamespacedName`. -/
structure NamespacedName where
  Namespace : String
  Name : String
  deriving DecidableEq, Repr

/-- Go `ctrl.Request`. -/
structure Request where
  NamespacedName : NamespacedName
  deriving DecidableEq, Repr

/-- Go `ctrl.Result`; `RequeueAfter` is a duration in nanoseconds. -/
structure Result where
  Requeue : Bool := false
  RequeueAfter : Nat := 0
  deriving DecidableEq, Repr

/-- Go `time.Second`, in nanoseconds. -/
def Second : Nat := 1000000000

/-- The read side of the API client: the outcome of each `Get`. -/
structure Client where
  GetBackup : NamespacedName → Except ApiError topolvmv1.Backup
  GetPVC : NamespacedName → Except ApiError corev1.PersistentVolumeClaim
  GetPV : NamespacedName → Except ApiError corev1.PersistentVolume
  GetSecret : NamespacedName → Except ApiError corev1.Secret

/-- The receiver `BackupReconciler`: API client, node name and the client of
the node-local volume service (the outcome of its `CreateBackup` call; an
error is a failed call). -/
structure BackupReconciler where
  Client : Client
  nodeName : String
  lvService : proto.CreateBackupRequest → Except String proto.CreateBackupResponse

/-- The calls `Reconcile` makes, in order. `StatusUpdate bu` is
`r.Status().Update(ctx, bu)`, `CreateBackup` is the orchestrator call. -/
inductive Action where
  | GetBackup (key : NamespacedName)
  | GetPVC (key : NamespacedName)
  | GetPV (key : NamespacedName)
  | GetSecret (key : NamespacedName)
  | StatusUpdate (bu : topolvmv1.Backup)
  | CreateBackup (req : proto.CreateBackupRequest)
  deriving DecidableEq, Repr

/-- How a call of `Reconcile` ends: it returns `(res, err)` (`err = none` is a
nil error), or it panics. -/
inductive Outcome where
  | returned (res : Result) (err : Option String)
  | panicked
  deriving DecidableEq, Repr

/-- The expression
`pv.Spec.NodeAffinity.Required.NodeSelectorTerms[0].MatchExpressions[0].Values[0]`;
`none` when a pointer on the way is nil or a slice is empty (a panic). -/
def volumeNode (pv : corev1.PersistentVolume) : Option String :=
  match pv.Spec.NodeAffinity with
  | none => none
  | some affinity =>
  match affinity.Required with
  | none => none
  | some required =>
  match required.NodeSelectorTerms.head? with
  | none => none
  | some term =>
  match term.MatchExpressions.head? with
  | none => none
  | some expr => expr.Values.head?

/-- The text of the error for a volume that cannot be backed up. -/
def unsupported : String := "Backup Controller: unsupported backup type"

/-- The request built for the orchestrator. -/
def createBackupReq (bu : topolvmv1.Backup) (csi : corev1.CSIPersistentVolumeSource)
    (secret : corev1.Secret) : proto.CreateBackupRequest :=
  { Backup := some
      { Name := bu.Name
        VolumeHandle := csi.VolumeHandle
        DataSource := some
          { SynchronousRestore := false
            S3 :=
              { Path := bu.Spec.S3.Path
                Endpoint := bu.Spec.S3.Endpoint
                VerifyTls := bu.Spec.S3.VerifyTLS
                HttpProxy := bu.Spec.S3.HTTPProxy
                HttpsProxy := bu.Spec.S3.HTTPSProxy
                AccessKeyId := secret.get "AccessKeyId"
                SecretAccessKey := secret.get "SecretAccessKey"
                SessionToken := secret.get "SessionToken"
                EncryptionKey := secret.get "EncryptionKey" } } } }

/-- The resource `bu` after `bu.Status.State = st; bu.Status.Message = msg`. -/
def setStatus (bu : topolvmv1.Backup) (st : topolvmv1.state) (msg : String) :
    topolvmv1.Backup :=
  { bu with Status := { State := st, Message := msg } }

/-- Method `Reconcile`: the outcome and the calls made, in order. -/
def Reconcile (r : BackupReconciler) (req : Request) : Outcome × List Action :=
  let t0 := [Action.GetBackup req.NamespacedName]
  match r.Client.GetBackup req.NamespacedName with
  | .error err =>
    if !err.IsNotFound then (.returned { Requeue := false } none, t0)
    else (.returned { Requeue := false } none, t0)
  | .ok bu =>
  -- Prevent endless loops
  if bu.Status.State = topolvmv1.Error ∨ bu.Status.State = topolvmv1.Complete then
    (.returned { Requeue := false } none, t0)
  else if strings.ToLower bu.Spec.Kind = "pvc" then
    let pvcKey : NamespacedName := { Namespace := bu.Namespace, Name := bu.Spec.Name }
    let t1 := t0 ++ [Action.GetPVC pvcKey]
    match r.Client.GetPVC pvcKey with
    | .error err =>
      let bu1 := setStatus bu topolvmv1.Error (fmt.Sprintf r.nodeName err.Error)
      if !err.IsNotFound then (.returned {} (some err.Error), t1 ++ [Action.StatusUpdate bu1])
      else (.returned {} (some err.Error), t1 ++ [Action.StatusUpdate bu1])
    | .ok pvc =>
    let pvKey : NamespacedName := { Namespace := "", Name := pvc.Spec.VolumeName }
    let t2 := t1 ++ [Action.GetPV pvKey]
    match r.Client.GetPV pvKey with
    | .error err =>
      let bu1 := setStatus bu topolvmv1.Error (fmt.Sprintf r.nodeName err.Error)
      if !err.IsNotFound then (.returned {} (some err.Error), t2 ++ [Action.StatusUpdate bu1])
      else (.returned {} (some err.Error), t2 ++ [Action.StatusUpdate bu1])
    | .ok pv =>
    -- Check if volume can be backed up
    match pv.Spec.CSI with
    | none => (.panicked, t2) -- nil dereference in `pv.Spec.CSI.Driver`
    | some csi =>
    -- `a || b`: the volume mode is dereferenced only when the driver matches
    let cannot : Option Bool :=
      if csi.Driver ≠ "topolvm.cybozu.com" then some true
      else
        match pv.Spec.VolumeMode with
        | none => none
        | some mode => some (decide (mode ≠ corev1.PersistentVolumeFilesystem))
    match cannot with
    | none => (.panicked, t2) -- nil dereference in `*pv.Spec.VolumeMode`
    | some true =>
      let bu1 := setStatus bu topolvmv1.Error (fmt.Sprintf r.nodeName unsupported)
      -- the log call dereferences the volume mode
      match pv.Spec.VolumeMode with
      | none => (.panicked, t2 ++ [Action.StatusUpdate bu1])
      | some _ => (.returned {} (some unsupported), t2 ++ [Action.StatusUpdate bu1])
    | some false =>
    -- Check if volume sits on the same node
    match volumeNode pv with
    | none => (.panicked, t2) -- nil dereference or index out of range
    | some node =>
    if node ≠ r.nodeName then (.returned {} none, t2)
    else
      -- Get Secret
      let secretKey : NamespacedName := { Namespace := bu.Namespace, Name := bu.Spec.S3.Secret }
      let t3 := t2 ++ [Action.GetSecret secretKey]
      match r.Client.GetSecret secretKey with
      | .error err =>
        let bu1 := setStatus bu topolvmv1.Error (fmt.Sprintf r.nodeName err.Error)
        (.returned {} (some err.Error), t3 ++ [Action.StatusUpdate bu1])
      | .ok secret =>
      let request := createBackupReq bu csi secret
      let t4 := t3 ++ [Action.CreateBackup request]
      match r.lvService request with
      | .error err =>
        let bu1 := setStatus bu topolvmv1.Error (fmt.Sprintf r.nodeName err)
        (.returned {} none, t4 ++ [Action.StatusUpdate bu1])
      | .ok response =>
        let bu1 := setStatus bu bu.Status.State (fmt.Sprintf r.nodeName response.BackupState.Msg)
        if response.BackupState.State = proto.StateType.INPROGRESS then
          let bu2 := setStatus bu1 topolvmv1.InProgress bu1.Status.Message
          (.returned { RequeueAfter := 30 * Second, Requeue := true } none,
            t4 ++ [Action.StatusUpdate bu2])
        else if response.BackupState.State = proto.StateType.ERROR then
          let bu2 := setStatus bu1 topolvmv1.Error bu1.Status.Message
          (.returned {} (some response.BackupState.Msg), t4 ++ [Action.StatusUpdate bu2])
        else if response.BackupState.State = proto.StateType.COMPLETE then
          let bu2 := setStatus bu1 topolvmv1.Complete bu1.Status.Message
          (.returned {} none, t4 ++ [Action.StatusUpdate bu2])
        else (.returned {} none, t4 ++ [Action.StatusUpdate bu1])
  else
    (.returned {} none, t0)

/-- The event filter `backupFilter`. -/
structure backupFilter where
  deriving DecidableEq, Repr

/-- Method `Create`. -/
def backupFilter.Create (_f : backupFilter) (_e : event.CreateEvent) : Bool := true

/-- Method `Delete`. -/
def backupFilter.Delete (_f : backupFilter) (_e : event.DeleteEvent) : Bool := true

/-- Method `Update`. -/
def backupFilter.Update (_f : backupFilter) (_e : event.UpdateEvent) : Bool := false

/-- Method `Generic`. -/
def backupFilter.Generic (_f : backupFilter) (_e : event.GenericEvent) : Bool := false

/-! ### Observations on a run of `Reconcile` -/

/-- The resources handed to `Status().Update`, in call order. -/
def statusWrites : List Action → List topolvmv1.Backup
  | [] => []
  | Action.StatusUpdate bu :: rest => bu :: statusWrites rest
  | _ :: rest => statusWrites rest

/-- The requests sent to the orchestrator, in call order. -/
def orchestratorCalls : List Action → List proto.CreateBackupRequest
  | [] => []
  | Action.CreateBackup q :: rest => q :: orchestratorCalls rest
  | _ :: rest => orchestratorCalls rest

/-- The reconciler called the orchestrator during this run. -/
def invokesOrchestrator (r : BackupReconciler) (req : Request) : Bool :=
  !(orchestratorCalls (Reconcile r req).2).isEmpty

/-! ### The stored resource under a sequence of triggers -/

/-- The stored resource after the status writes of one run; a write replaces
the status (state and message) of the stored resource. -/
def applyWrites (stored : topolvmv1.Backup) : List topolvmv1.Backup → topolvmv1.Backup
  | [] => stored
  | bu :: rest => applyWrites { stored with Status := bu.Status } rest

/-- One reconcile trigger: the reconciler that runs (any node, any view of the
claims, volumes and secrets, any orchestrator answer), the request, whether
fetching the Backup fails, and whether status writes reach the store. -/
structure Trigger where
  r : BackupReconciler
  req : Request
  fetchError : Option ApiError
  updateOk : Bool

/-- The reconciler of a trigger, reading the Backup from the store. -/
def Trigger.reconciler (t : Trigger) (stored : topolvmv1.Backup) : BackupReconciler :=
  { t.r with
    Client :=
      { t.r.Client with
        GetBackup := fun _ =>
          match t.fetchError with
          | some e => .error e
          | none => .ok stored } }

/-- The stored resource after one trigger. -/
def step (stored : topolvmv1.Backup) (t : Trigger) : topolvmv1.Backup :=
  if t.updateOk then
    applyWrites stored (statusWrites (Reconcile (t.reconciler stored) t.req).2)
  else stored

/-- The stored resource after a sequence of triggers. -/
def run (stored : topolvmv1.Backup) (ts : List Trigger) : topolvmv1.Backup :=
  ts.foldl step stored

end controllers

/-! ## Concrete inputs -/

namespace lvmd

/-- A volume group with `free` bytes left and the volumes `lvs`, whose
accessor calls all succeed. -/
def sampleGroup (free : Nat) (lvs : List command.LogicalVolume) : command.VolumeGroup :=
  { Free := .ok free
    ListVolumes := .ok lvs
    FindVolume := fun name =>
      match lvs.find? (fun lv => lv.name == name) with
      | some lv => .ok lv
      | none => .error .ErrNotFound
    CreateVolume := fun name size _ => .ok ⟨name, size, 253, 0⟩
    CreateVolumeFromSource := fun name size _ _ _ => .ok ⟨name, size, 253, 0⟩
    Remove := fun _ => .ok ()
    Resize := fun _ _ => .ok () }

/-- A service over `sampleGroup`, with a notification callback and a script
runner that reports a running backup. -/
def sampleService (free : Nat) (lvs : List command.LogicalVolume) : lvService :=
  { mapper := fun name => .ok ⟨name, "myvg"⟩
    FindVolumeGroup := fun _ => .ok (sampleGroup free lvs)
    notifyFunc := true
    CreateBackup := fun _ _ => .ok .INPROGRESS
    backup := ⟨"/usr/local/bin/backup.sh", "/var/lib/backup"⟩
    restore := ⟨"/usr/local/bin/restore.sh"⟩ }

/-- A one-GiB volume named `data`. -/
def dataVolume : command.LogicalVolume := ⟨"data", 2 ^ 30, 253, 1⟩

/-- A one-GiB volume named `logs`. -/
def logsVolume : command.LogicalVolume := ⟨"logs", 2 ^ 30, 253, 2⟩

end lvmd

namespace controllers

/-- A Backup named `nightly` of the claim `data-claim`, in state `st`. -/
def sampleBackup (st : topolvmv1.state) : topolvmv1.Backup :=
  { Name := "nightly"
    Namespace := "default"
    Spec :=
      { BackupStorageType := "s3"
        S3 :=
          { Path := "bucket/nightly"
            Secret := "s3-credentials"
            Endpoint := "https://s3.example.com"
            VerifyTLS := true
            HTTPProxy := ""
            HTTPSProxy := "" }
        Kind := "PVC"
        Name := "data-claim" }
    Status := { State := st, Message := "" } }

/-- The claim `data-claim`, bound to the volume `pv-1`. -/
def sampleClaim : corev1.PersistentVolumeClaim :=
  { Name := "data-claim", Namespace := "default", Spec := { VolumeName := "pv-1" } }

/-- The node affinity that places a volume on `node`. -/
def placedOn (node : String) : corev1.VolumeNodeAffinity :=
  { Required := some
      { NodeSelectorTerms :=
          [{ MatchExpressions :=
              [{ Key := "topology.topolvm.cybozu.com/node", Operator := "In",
                 Values := [node] }] }] } }

/-- The volume `pv-1` with the given CSI source and volume mode, placed on `node-a`. -/
def sampleVolume (csi : Option corev1.CSIPersistentVolumeSource) (mode : Option String) :
    corev1.PersistentVolume :=
  { Name := "pv-1"
    Spec := { CSI := csi, VolumeMode := mode, NodeAffinity := some (placedOn "node-a") } }

/-- The CSI source of a volume of this driver. -/
def topolvmSource : corev1.CSIPersistentVolumeSource :=
  { Driver := "topolvm.cybozu.com", VolumeHandle := "lv-0001" }

/-- The referenced secret. -/
def sampleSecret : corev1.Secret :=
  { Data := [("AccessKeyId", "AKIA"), ("SecretAccessKey", "s3cr3t")] }

/-- A cluster that holds the Backup `bu`, the claim, the volume `pv` and the secret. -/
def sampleClient (bu : topolvmv1.Backup) (pv : corev1.PersistentVolume) : Client :=
  { GetBackup := fun _ => .ok bu
    GetPVC := fun _ => .ok sampleClaim
    GetPV := fun _ => .ok pv
    GetSecret := fun _ => .ok sampleSecret }

/-- The reconciler of the node `node` over `sampleClient`, whose volume service
answers `answer`. -/
def sampleReconciler (node : String) (bu : topolvmv1.Backup) (pv : corev1.PersistentVolume)
    (answer : Except String proto.CreateBackupResponse) : BackupReconciler :=
  { Client := sampleClient bu pv, nodeName := node, lvService := fun _ => answer }

/-- The request for the Backup `nightly`. -/
def sampleRequest : Request := { NamespacedName := { Namespace := "default", Name := "nightly" } }

/-- An orchestrator answer: the backup is running. -/
def running : Except String proto.CreateBackupResponse :=
  .ok { BackupState := { Name := "nightly", State := .INPROGRESS, Msg := "" } }

end controllers

/-! ## Properties of the volume service -/

namespace lvmd

theorem shl30_of_lt {g : Nat} (h : g < 2 ^ 34) : shl30 g = g * 2 ^ 30 := by
  unfold shl30
  apply Nat.mod_eq_of_lt
  omega

theorem sub64_of_le {a b : Nat} (hba : b ≤ a) (ha : a < 2 ^ 64) : sub64 a b = a - b := by
  unfold sub64
  have h : a + 2 ^ 64 - b = (a - b) + 2 ^ 64 := by omega
  rw [h, Nat.add_mod_right]
  apply Nat.mod_eq_of_lt
  omega

theorem shl30_lt (g : Nat) : shl30 g < 2 ^ 64 := by
  unfold shl30
  exact Nat.mod_lt _ (by norm_num)

/-- Claim C1, as stated, fails: a request of `2 ^ 34` GiB asks for `2 ^ 64`
bytes, more than the free capacity `0`, yet `CreateLV` succeeds, calls the
accessor (with the wrapped size `0`) and notifies. -/
theorem CreateLV_size_wraps :
    ¬ (2 ^ 34 * 2 ^ 30 ≤ 0) ∧
    succeeded (CreateLV (sampleService 0 [])
      { Name := "v", DeviceClass := "ssd", SizeGb := 2 ^ 34, Tags := [], DataSource := none })
      = true ∧
    (CreateLV (sampleService 0 [])
      { Name := "v", DeviceClass := "ssd", SizeGb := 2 ^ 34, Tags := [], DataSource := none }).2
      = [Effect.CreateVolume "v" 0 [], Effect.notifyFunc] := by
  decide

/-- Claim C1, amended: with `R` the requested size as the code computes it,
`SizeGb * 2 ^ 30` modulo `2 ^ 64` (equal to `SizeGb * 2 ^ 30` for every
`SizeGb < 2 ^ 34`), and assuming the device class and the volume group
resolve and neither the free-capacity query nor the accessor's create call
fails: `CreateLV` succeeds iff `R ≤ F`, and when `R > F` it fails with
`ResourceExhausted`, having called no accessor operation and emitted no
notification. -/
theorem CreateLV_succeeds_iff_fits (s : lvService) (req : proto.CreateLVRequest)
    (dc : DeviceClass) (vg : command.VolumeGroup) (F : Nat)
    (hdc : s.mapper req.DeviceClass = .ok dc)
    (hvg : s.FindVolumeGroup dc.VolumeGroup = .ok vg)
    (hfree : vg.Free = .ok F)
    (hcreate : ∀ name size tags, ∃ lv, vg.CreateVolume name size tags = .ok lv)
    (hsource : ∀ name size tags src conf, ∃ lv,
      vg.CreateVolumeFromSource name size tags src conf = .ok lv) :
    (succeeded (CreateLV s req) = true ↔ shl30 req.SizeGb ≤ F) ∧
    (F < shl30 req.SizeGb →
      failedWith .ResourceExhausted (CreateLV s req) = true ∧ (CreateLV s req).2 = []) ∧
    (req.SizeGb < 2 ^ 34 → shl30 req.SizeGb = req.SizeGb * 2 ^ 30) := by
  refine ⟨?_, ?_, shl30_of_lt⟩
  · by_cases hlt : F < shl30 req.SizeGb
    · simp [CreateLV, hdc, hvg, hfree, hlt, succeeded]
    · cases hds : req.DataSource with
      | none =>
        obtain ⟨lv, hlv⟩ := hcreate req.Name (shl30 req.SizeGb) req.Tags
        simp [CreateLV, hdc, hvg, hfree, hlt, succeeded, hds, hlv]
        omega
      | some src =>
        obtain ⟨lv, hlv⟩ := hsource req.Name (shl30 req.SizeGb) req.Tags src s.restore
        simp [CreateLV, hdc, hvg, hfree, hlt, succeeded, hds, hlv]
        omega
  · intro hlt
    simp [CreateLV, hdc, hvg, hfree, hlt, failedWith, status.Error]

/-- Witness for claim C1: three GiB requested, four GiB free. -/
theorem CreateLV_succeeds_iff_fits_witness :
    (succeeded (CreateLV (sampleService (2 ^ 32) [])
        { Name := "v", DeviceClass := "ssd", SizeGb := 3, Tags := [], DataSource := none }) = true
      ↔ shl30 3 ≤ 2 ^ 32) ∧
    (2 ^ 32 < shl30 3 →
      failedWith .ResourceExhausted (CreateLV (sampleService (2 ^ 32) [])
        { Name := "v", DeviceClass := "ssd", SizeGb := 3, Tags := [], DataSource := none }) = true ∧
      (CreateLV (sampleService (2 ^ 32) [])
        { Name := "v", DeviceClass := "ssd", SizeGb := 3, Tags := [], DataSource := none }).2 = []) ∧
    ((3 : Nat) < 2 ^ 34 → shl30 3 = 3 * 2 ^ 30) :=
  CreateLV_succeeds_iff_fits (sampleService (2 ^ 32) [])
    { Name := "v", DeviceClass := "ssd", SizeGb := 3, Tags := [], DataSource := none }
    ⟨"ssd", "myvg"⟩ (sampleGroup (2 ^ 32) []) (2 ^ 32) rfl rfl rfl
    (fun name size _ => ⟨⟨name, size, 253, 0⟩, rfl⟩)
    (fun name size _ _ _ => ⟨⟨name, size, 253, 0⟩, rfl⟩)

end lvmd

namespace lvmd

/-- Claim C2, as stated, fails: a request of `2 ^ 34` GiB asks for `2 ^ 64`
bytes, not less than the current size of one GiB, yet `ResizeLV` rejects it
with `OutOfRange` (the size wraps to `0`). -/
theorem ResizeLV_size_wraps :
    ¬ (2 ^ 34 * 2 ^ 30 < dataVolume.size) ∧
    failedWith .OutOfRange (ResizeLV (sampleService (2 ^ 40) [dataVolume])
      { Name := "data", DeviceClass := "ssd", SizeGb := 2 ^ 34 }) = true := by
  decide

/-- Claim C2, amended: with `R` the requested size as the code computes it,
`SizeGb * 2 ^ 30` modulo `2 ^ 64` (equal to `SizeGb * 2 ^ 30` for every
`SizeGb < 2 ^ 34`), `C` the current size of the volume and `F` the free
capacity, and assuming the lookups and the accessor's resize call do not
fail: `ResizeLV` is rejected with `OutOfRange` iff `R < C`; otherwise it
succeeds iff `R - C ≤ F` and fails with `ResourceExhausted` when `R - C > F`;
the accessor's resize and the notification happen only on the success path. -/
theorem ResizeLV_admission (s : lvService) (req : proto.ResizeLVRequest)
    (dc : DeviceClass) (vg : command.VolumeGroup) (lv : command.LogicalVolume) (F : Nat)
    (hdc : s.mapper req.DeviceClass = .ok dc)
    (hvg : s.FindVolumeGroup dc.VolumeGroup = .ok vg)
    (hfind : vg.FindVolume req.Name = .ok lv)
    (hfree : vg.Free = .ok F)
    (hresize : ∀ size, vg.Resize lv size = .ok ()) :
    (failedWith .OutOfRange (ResizeLV s req) = true ↔ shl30 req.SizeGb < lv.size) ∧
    (lv.size ≤ shl30 req.SizeGb →
      (succeeded (ResizeLV s req) = true ↔ shl30 req.SizeGb - lv.size ≤ F)) ∧
    (lv.size ≤ shl30 req.SizeGb → F < shl30 req.SizeGb - lv.size →
      failedWith .ResourceExhausted (ResizeLV s req) = true) ∧
    (succeeded (ResizeLV s req) = true →
      (ResizeLV s req).2 = [Effect.Resize lv (shl30 req.SizeGb)] ++ s.notify) ∧
    (succeeded (ResizeLV s req) = false → (ResizeLV s req).2 = []) ∧
    (req.SizeGb < 2 ^ 34 → shl30 req.SizeGb = req.SizeGb * 2 ^ 30) := by
  have hR := shl30_lt req.SizeGb
  by_cases hshrink : shl30 req.SizeGb < lv.size
  · refine ⟨?_, ?_, ?_, ?_, ?_, shl30_of_lt⟩ <;>
      simp [ResizeLV, hdc, hvg, hfind, hshrink, failedWith, succeeded, status.Error]
  · have hle : lv.size ≤ shl30 req.SizeGb := Nat.le_of_not_lt hshrink
    have hsub := sub64_of_le hle hR
    by_cases hroom : F < shl30 req.SizeGb - lv.size
    · refine ⟨?_, ?_, ?_, ?_, ?_, shl30_of_lt⟩ <;>
        simp [ResizeLV, hdc, hvg, hfind, hshrink, hfree, hsub, hroom, failedWith, succeeded,
          status.Error]
      all_goals omega
    · refine ⟨?_, ?_, ?_, ?_, ?_, shl30_of_lt⟩ <;>
        simp [ResizeLV, hdc, hvg, hfind, hshrink, hfree, hsub, hroom, hresize, failedWith,
          succeeded, status.Error]
      all_goals omega

/-- Witness for claim C2: a one-GiB volume grown to three GiB with four GiB
free. -/
theorem ResizeLV_admission_witness :
    (failedWith .OutOfRange (ResizeLV (sampleService (2 ^ 32) [dataVolume])
        { Name := "data", DeviceClass := "ssd", SizeGb := 3 }) = true
      ↔ shl30 3 < dataVolume.size) ∧
    (dataVolume.size ≤ shl30 3 →
      (succeeded (ResizeLV (sampleService (2 ^ 32) [dataVolume])
        { Name := "data", DeviceClass := "ssd", SizeGb := 3 }) = true
        ↔ shl30 3 - dataVolume.size ≤ 2 ^ 32)) :=
  have h := ResizeLV_admission (sampleService (2 ^ 32) [dataVolume])
    { Name := "data", DeviceClass := "ssd", SizeGb := 3 }
    ⟨"ssd", "myvg"⟩ (sampleGroup (2 ^ 32) [dataVolume]) dataVolume (2 ^ 32)
    rfl rfl rfl rfl (fun _ => rfl)
  ⟨h.1, h.2.1⟩

theorem RemoveLV_loop_absent (s : lvService) (vg : command.VolumeGroup) (name : String)
    (lvs : List command.LogicalVolume) (habsent : ∀ lv ∈ lvs, lv.name ≠ name) :
    RemoveLV.loop s vg name lvs = (.ok {}, []) := by
  induction lvs with
  | nil => rfl
  | cons lv rest ih =>
    have hne : lv.name ≠ name := habsent lv (List.mem_cons_self _ _)
    have hrest : ∀ x ∈ rest, x.name ≠ name := fun x hx => habsent x (List.mem_cons_of_mem _ hx)
    simp [RemoveLV.loop, hne, ih hrest]

theorem RemoveLV_loop_skip (s : lvService) (vg : command.VolumeGroup) (name : String)
    (pre rest : List command.LogicalVolume) (hpre : ∀ lv ∈ pre, lv.name ≠ name) :
    RemoveLV.loop s vg name (pre ++ rest) = RemoveLV.loop s vg name rest := by
  induction pre with
  | nil => rfl
  | cons lv pre ih =>
    have hne : lv.name ≠ name := hpre lv (List.mem_cons_self _ _)
    have hrest : ∀ x ∈ pre, x.name ≠ name := fun x hx => hpre x (List.mem_cons_of_mem _ hx)
    simp [RemoveLV.loop, hne, ih hrest]

/-- Claim C3: for every volume list returned by the group and every requested
name that matches no volume of the list, `RemoveLV` returns an `Empty`
response without error, calls `Remove` on no volume and emits no
notification; when a name matches, `Remove` is called on exactly one volume,
the first match, and nothing else is touched (the only other effect can be
the notification). -/
theorem RemoveLV_absent_is_noop (s : lvService) (req : proto.RemoveLVRequest)
    (dc : DeviceClass) (vg : command.VolumeGroup) (lvs : List command.LogicalVolume)
    (hdc : s.mapper req.DeviceClass = .ok dc)
    (hvg : s.FindVolumeGroup dc.VolumeGroup = .ok vg)
    (hlist : vg.ListVolumes = .ok lvs) :
    ((∀ lv ∈ lvs, lv.name ≠ req.Name) → RemoveLV s req = (.ok {}, [])) ∧
    (∀ pre lv post, lvs = pre ++ lv :: post → (∀ x ∈ pre, x.name ≠ req.Name) →
      lv.name = req.Name →
      removed (RemoveLV s req).2 = [lv] ∧
      ((RemoveLV s req).2 = [Effect.Remove lv] ∨
        (RemoveLV s req).2 = [Effect.Remove lv, Effect.notifyFunc])) := by
  constructor
  · intro habsent
    simp [RemoveLV, hdc, hvg, hlist, RemoveLV_loop_absent s vg req.Name lvs habsent]
  · intro pre lv post hsplit hpre hname
    have hrun : RemoveLV s req = RemoveLV.loop s vg req.Name (lv :: post) := by
      simp [RemoveLV, hdc, hvg, hlist, hsplit, RemoveLV_loop_skip s vg req.Name pre _ hpre]
    rw [hrun]
    cases hrm : vg.Remove lv with
    | error err => simp [RemoveLV.loop, hname, hrm, removed]
    | ok u =>
      cases hn : s.notifyFunc <;>
        simp [RemoveLV.loop, hname, hrm, removed, lvService.notify, hn]

/-- Witness for claim C3: removing `cache` from a group that holds `data` and
`logs`. -/
theorem RemoveLV_absent_is_noop_witness :
    RemoveLV (sampleService 0 [dataVolume, logsVolume]) { Name := "cache", DeviceClass := "ssd" }
      = (.ok {}, []) :=
  (RemoveLV_absent_is_noop (sampleService 0 [dataVolume, logsVolume])
    { Name := "cache", DeviceClass := "ssd" } ⟨"ssd", "myvg"⟩
    (sampleGroup 0 [dataVolume, logsVolume]) [dataVolume, logsVolume] rfl rfl rfl).1
    (by decide)

/-- What `CreateBackup` returns for a request that carries a backup message:
no error, a state named after the backup; the runner's failure text with state
`ERROR`, or the runner's state with an empty message. -/
theorem CreateBackup_with_backup (s : lvService) (b : proto.Backup) :
    (∀ err, s.CreateBackup (some b) s.backup = .error err →
      CreateBackup s { Backup := some b }
        = some ({ BackupState := { Name := b.Name, State := .ERROR, Msg := err } }, none)) ∧
    (∀ st, s.CreateBackup (some b) s.backup = .ok st →
      CreateBackup s { Backup := some b }
        = some ({ BackupState := { Name := b.Name, State := st, Msg := "" } }, none)) := by
  constructor
  · intro err h
    simp [CreateBackup, h]
  · intro st h
    simp [CreateBackup, h]

/-- Claim C8, at the failing input: for a request without a backup message
(`req.Backup == nil`) `CreateBackup` returns no `BackupState` at all, whatever
the script runner answers; it ends in a nil-pointer panic at
`req.Backup.Name`. -/
theorem CreateBackup_without_backup_panics (s : lvService) :
    CreateBackup s { Backup := none } = none := by
  unfold CreateBackup
  cases s.CreateBackup none s.backup <;> rfl

end lvmd

/-! ## Properties of the Backup reconciler -/

namespace controllers

theorem statusWrites_append (xs ys : List Action) :
    statusWrites (xs ++ ys) = statusWrites xs ++ statusWrites ys := by
  induction xs with
  | nil => rfl
  | cons x xs ih => cases x <;> simp [statusWrites, ih]

theorem orchestratorCalls_append (xs ys : List Action) :
    orchestratorCalls (xs ++ ys) = orchestratorCalls xs ++ orchestratorCalls ys := by
  induction xs with
  | nil => rfl
  | cons x xs ih => cases x <;> simp [orchestratorCalls, ih]

theorem Reconcile_terminal (r : BackupReconciler) (req : Request) (bu : topolvmv1.Backup)
    (hget : r.Client.GetBackup req.NamespacedName = .ok bu)
    (hterminal : bu.Status.State = topolvmv1.Error ∨ bu.Status.State = topolvmv1.Complete) :
    Reconcile r req
      = (.returned { Requeue := false, RequeueAfter := 0 } none,
          [Action.GetBackup req.NamespacedName]) := by
  simp [Reconcile, hget, hterminal]

theorem step_terminal (stored : topolvmv1.Backup) (t : Trigger)
    (hterminal :
      stored.Status.State = topolvmv1.Error ∨ stored.Status.State = topolvmv1.Complete) :
    step stored t = stored := by
  unfold step
  split
  · cases hfetch : t.fetchError with
    | some e =>
      have hrun : Reconcile (t.reconciler stored) t.req
          = (.returned { Requeue := false, RequeueAfter := 0 } none,
              [Action.GetBackup t.req.NamespacedName]) := by
        simp [Reconcile, Trigger.reconciler, hfetch]
      simp [hrun, statusWrites, applyWrites]
    | none =>
      have hget : (t.reconciler stored).Client.GetBackup t.req.NamespacedName = .ok stored := by
        simp [Trigger.reconciler, hfetch]
      simp [Reconcile_terminal _ _ _ hget hterminal, statusWrites, applyWrites]
  · rfl

/-- Claim C4: when the fetched Backup is in state `Error` or `Complete`,
`Reconcile` only fetches the resource (no status write, no claim, volume or
secret lookup, no orchestrator call) and returns a result without requeue and
without error; hence a stored resource in such a state is left as it is by
every sequence of reconcile triggers. -/
theorem terminal_state_is_final (r : BackupReconciler) (req : Request)
    (bu : topolvmv1.Backup)
    (hget : r.Client.GetBackup req.NamespacedName = .ok bu)
    (hterminal : bu.Status.State = topolvmv1.Error ∨ bu.Status.State = topolvmv1.Complete) :
    Reconcile r req
      = (.returned { Requeue := false, RequeueAfter := 0 } none,
          [Action.GetBackup req.NamespacedName]) ∧
    (∀ ts : List Trigger, run bu ts = bu) := by
  refine ⟨Reconcile_terminal r req bu hget hterminal, ?_⟩
  intro ts
  induction ts with
  | nil => rfl
  | cons t ts ih =>
    simp only [run, List.foldl_cons] at ih ⊢
    rw [step_terminal bu t hterminal]
    exact ih

/-- Witness for claim C4: a completed Backup, reconciled on the node that hosts
its volume. -/
theorem terminal_state_is_final_witness :
    Reconcile (sampleReconciler "node-a" (sampleBackup topolvmv1.Complete)
        (sampleVolume (some topolvmSource) (some "Filesystem")) running) sampleRequest
      = (.returned { Requeue := false, RequeueAfter := 0 } none,
          [Action.GetBackup sampleRequest.NamespacedName]) ∧
    (∀ ts : List Trigger, run (sampleBackup topolvmv1.Complete) ts
      = sampleBackup topolvmv1.Complete) :=
  terminal_state_is_final _ sampleRequest (sampleBackup topolvmv1.Complete) rfl
    (Or.inr rfl)

/-- Claim C10: the event filter is constant per event kind (`Create` and
`Delete` return true, `Update` and `Generic` return false), and a trigger
whose resource fetch finds nothing is a no-op in `Reconcile`: only the fetch
is made, no status is written, no requeue is requested and no error is
returned. -/
theorem backupFilter_constant (f : backupFilter) :
    (∀ e, f.Create e = true) ∧ (∀ e, f.Update e = false) ∧ (∀ e, f.Generic e = false) ∧
    (∀ e, f.Delete e = true) ∧
    (∀ (r : BackupReconciler) (req : Request) (err : ApiError),
      r.Client.GetBackup req.NamespacedName = .error err →
      Reconcile r req
        = (.returned { Requeue := false, RequeueAfter := 0 } none,
            [Action.GetBackup req.NamespacedName])) := by
  refine ⟨fun _ => rfl, fun _ => rfl, fun _ => rfl, fun _ => rfl, ?_⟩
  intro r req err hget
  simp [Reconcile, hget]

/-- Witness for claim C10: the Backup is gone when the deletion event is
reconciled. -/
theorem backupFilter_constant_witness :
    Reconcile
        { Client :=
            { sampleClient (sampleBackup "") (sampleVolume none none) with
              GetBackup := fun _ => .error ⟨true, "backups nightly not found"⟩ }
          nodeName := "node-a"
          lvService := fun _ => running } sampleRequest
      = (.returned { Requeue := false, RequeueAfter := 0 } none,
          [Action.GetBackup sampleRequest.NamespacedName]) :=
  (backupFilter_constant {}).2.2.2.2 _ sampleRequest ⟨true, "backups nightly not found"⟩ rfl

/-- Claim C5, as stated, fails: the Backup is not terminal and the volume is
placed on `node-a`, yet the reconciler of `node-b` writes the status `Error`
(with its own node name in the message) because the volume is in block mode,
and the stored status changes. -/
theorem other_node_writes_status :
    volumeNode (sampleVolume (some topolvmSource) (some "Block")) = some "node-a" ∧
    "node-b" ≠ "node-a" ∧
    statusWrites (Reconcile (sampleReconciler "node-b" (sampleBackup "")
        (sampleVolume (some topolvmSource) (some "Block")) running) sampleRequest).2
      = [setStatus (sampleBackup "") topolvmv1.Error
          "node-b: Backup Controller: unsupported backup type"] ∧
    (step (sampleBackup "")
        { r := sampleReconciler "node-b" (sampleBackup "")
            (sampleVolume (some topolvmSource) (some "Block")) running
          req := sampleRequest, fetchError := none, updateOk := true }).Status
      ≠ (sampleBackup "").Status := by
  decide

/-- Claim C5, amended: for every non-terminal Backup of kind pvc whose claim
and volume are found and whose volume passes the driver and mode check, and
every node whose name differs from the node named by the volume's placement
constraint, `Reconcile` on that node writes no status, looks up no secret,
calls no orchestrator and returns without error and without requeue. -/
theorem other_node_leaves_status (r : BackupReconciler) (req : Request)
    (bu : topolvmv1.Backup) (pvc : corev1.PersistentVolumeClaim)
    (pv : corev1.PersistentVolume) (csi : corev1.CSIPersistentVolumeSource) (node : String)
    (hget : r.Client.GetBackup req.NamespacedName = .ok bu)
    (hopen : bu.Status.State ≠ topolvmv1.Error ∧ bu.Status.State ≠ topolvmv1.Complete)
    (hkind : strings.ToLower bu.Spec.Kind = "pvc")
    (hpvc : r.Client.GetPVC ⟨bu.Namespace, bu.Spec.Name⟩ = .ok pvc)
    (hpv : r.Client.GetPV ⟨"", pvc.Spec.VolumeName⟩ = .ok pv)
    (hcsi : pv.Spec.CSI = some csi)
    (hdriver : csi.Driver = "topolvm.cybozu.com")
    (hmode : pv.Spec.VolumeMode = some corev1.PersistentVolumeFilesystem)
    (hnode : volumeNode pv = some node)
    (hother : node ≠ r.nodeName) :
    Reconcile r req
      = (.returned { Requeue := false, RequeueAfter := 0 } none,
          [Action.GetBackup req.NamespacedName, Action.GetPVC ⟨bu.Namespace, bu.Spec.Name⟩,
            Action.GetPV ⟨"", pvc.Spec.VolumeName⟩]) ∧
    statusWrites (Reconcile r req).2 = [] := by
  have hrun : Reconcile r req
      = (.returned { Requeue := false, RequeueAfter := 0 } none,
          [Action.GetBackup req.NamespacedName, Action.GetPVC ⟨bu.Namespace, bu.Spec.Name⟩,
            Action.GetPV ⟨"", pvc.Spec.VolumeName⟩]) := by
    simp [Reconcile, hget, hopen.1, hopen.2, hkind, hpvc, hpv, hcsi, hdriver, hmode, hnode,
      hother]
  exact ⟨hrun, by simp [hrun, statusWrites]⟩

/-- Witness for claim C5: a filesystem volume placed on `node-a`, reconciled on
`node-b`. -/
theorem other_node_leaves_status_witness :
    Reconcile (sampleReconciler "node-b" (sampleBackup "")
        (sampleVolume (some topolvmSource) (some "Filesystem")) running) sampleRequest
      = (.returned { Requeue := false, RequeueAfter := 0 } none,
          [Action.GetBackup sampleRequest.NamespacedName, Action.GetPVC ⟨"default", "data-claim"⟩,
            Action.GetPV ⟨"", "pv-1"⟩]) ∧
    statusWrites (Reconcile (sampleReconciler "node-b" (sampleBackup "")
        (sampleVolume (some topolvmSource) (some "Filesystem")) running) sampleRequest).2 = [] :=
  other_node_leaves_status _ sampleRequest (sampleBackup "") sampleClaim
    (sampleVolume (some topolvmSource) (some "Filesystem")) topolvmSource "node-a"
    rfl (by decide) (by decide) rfl rfl rfl rfl rfl rfl (by decide)

/-- Claim C9, at the failing input: the claim and the volume are found and the
volume is in block mode, but it has no CSI source (a local volume);
`Reconcile` panics at `pv.Spec.CSI.Driver`: it writes no status and returns
nothing. -/
theorem block_volume_without_csi_panics :
    (sampleVolume none (some "Block")).Spec.VolumeMode = some corev1.PersistentVolumeBlock ∧
    corev1.PersistentVolumeBlock ≠ corev1.PersistentVolumeFilesystem ∧
    Reconcile (sampleReconciler "node-a" (sampleBackup "")
        (sampleVolume none (some "Block")) running) sampleRequest
      = (.panicked,
          [Action.GetBackup sampleRequest.NamespacedName, Action.GetPVC ⟨"default", "data-claim"⟩,
            Action.GetPV ⟨"", "pv-1"⟩]) ∧
    statusWrites (Reconcile (sampleReconciler "node-a" (sampleBackup "")
        (sampleVolume none (some "Block")) running) sampleRequest).2 = [] := by
  decide

/-- What `Reconcile` does on a failed lookup or an unsupported volume whose
pointers are set: for every non-terminal Backup of kind pvc, (1) when the claim
is found, the volume is found and carries a CSI source and a volume
mode, with a driver other than `topolvm.cybozu.com` or a mode other than
`Filesystem`, `Reconcile` writes the status `Error` with the message
`<node name>: <error text>`, returns that error, requests no requeue and
neither looks up the secret nor calls the orchestrator; the same
node-name-prefixed `Error` status is written (2) when the volume lookup
fails and (3) when the secret lookup fails (on the node that hosts a
supported volume); and (4) when the claim lookup fails. -/
theorem lookup_or_validation_failure_is_error (r : BackupReconciler) (req : Request)
    (bu : topolvmv1.Backup)
    (hget : r.Client.GetBackup req.NamespacedName = .ok bu)
    (hopen : bu.Status.State ≠ topolvmv1.Error ∧ bu.Status.State ≠ topolvmv1.Complete)
    (hkind : strings.ToLower bu.Spec.Kind = "pvc") :
    (∀ pvc pv csi mode,
      r.Client.GetPVC ⟨bu.Namespace, bu.Spec.Name⟩ = .ok pvc →
      r.Client.GetPV ⟨"", pvc.Spec.VolumeName⟩ = .ok pv →
      pv.Spec.CSI = some csi → pv.Spec.VolumeMode = some mode →
      (csi.Driver ≠ "topolvm.cybozu.com" ∨ mode ≠ corev1.PersistentVolumeFilesystem) →
      Reconcile r req
        = (.returned { Requeue := false, RequeueAfter := 0 } (some unsupported),
            [Action.GetBackup req.NamespacedName, Action.GetPVC ⟨bu.Namespace, bu.Spec.Name⟩,
              Action.GetPV ⟨"", pvc.Spec.VolumeName⟩,
              Action.StatusUpdate
                { bu with Status :=
                    { State := topolvmv1.Error, Message := r.nodeName ++ ": " ++ unsupported } }])) ∧
    (∀ pvc err,
      r.Client.GetPVC ⟨bu.Namespace, bu.Spec.Name⟩ = .ok pvc →
      r.Client.GetPV ⟨"", pvc.Spec.VolumeName⟩ = .error err →
      Reconcile r req
        = (.returned { Requeue := false, RequeueAfter := 0 } (some err.Error),
            [Action.GetBackup req.NamespacedName, Action.GetPVC ⟨bu.Namespace, bu.Spec.Name⟩,
              Action.GetPV ⟨"", pvc.Spec.VolumeName⟩,
              Action.StatusUpdate
                { bu with Status :=
                    { State := topolvmv1.Error, Message := r.nodeName ++ ": " ++ err.Error } }])) ∧
    (∀ pvc pv csi err,
      r.Client.GetPVC ⟨bu.Namespace, bu.Spec.Name⟩ = .ok pvc →
      r.Client.GetPV ⟨"", pvc.Spec.VolumeName⟩ = .ok pv →
      pv.Spec.CSI = some csi → csi.Driver = "topolvm.cybozu.com" →
      pv.Spec.VolumeMode = some corev1.PersistentVolumeFilesystem →
      volumeNode pv = some r.nodeName →
      r.Client.GetSecret ⟨bu.Namespace, bu.Spec.S3.Secret⟩ = .error err →
      Reconcile r req
        = (.returned { Requeue := false, RequeueAfter := 0 } (some err.Error),
            [Action.GetBackup req.NamespacedName, Action.GetPVC ⟨bu.Namespace, bu.Spec.Name⟩,
              Action.GetPV ⟨"", pvc.Spec.VolumeName⟩,
              Action.GetSecret ⟨bu.Namespace, bu.Spec.S3.Secret⟩,
              Action.StatusUpdate
                { bu with Status :=
                    { State := topolvmv1.Error, Message := r.nodeName ++ ": " ++ err.Error } }])) ∧
    (∀ err,
      r.Client.GetPVC ⟨bu.Namespace, bu.Spec.Name⟩ = .error err →
      Reconcile r req
        = (.returned { Requeue := false, RequeueAfter := 0 } (some err.Error),
            [Action.GetBackup req.NamespacedName, Action.GetPVC ⟨bu.Namespace, bu.Spec.Name⟩,
              Action.StatusUpdate
                { bu with Status :=
                    { State := topolvmv1.Error, Message := r.nodeName ++ ": " ++ err.Error } }])) := by
  refine ⟨?_, ?_, ?_, ?_⟩
  · intro pvc pv csi mode hpvc hpv hcsi hmode hbad
    by_cases hdriver : csi.Driver = "topolvm.cybozu.com"
    · have hm : mode ≠ corev1.PersistentVolumeFilesystem := by
        rcases hbad with h | h
        · exact absurd hdriver h
        · exact h
      simp [Reconcile, hget, hopen.1, hopen.2, hkind, hpvc, hpv, hcsi, hmode, hdriver, hm,
        setStatus, fmt.Sprintf]
    · simp [Reconcile, hget, hopen.1, hopen.2, hkind, hpvc, hpv, hcsi, hmode, hdriver,
        setStatus, fmt.Sprintf]
  · intro pvc err hpvc hpv
    simp [Reconcile, hget, hopen.1, hopen.2, hkind, hpvc, hpv, setStatus, fmt.Sprintf]
  · intro pvc pv csi err hpvc hpv hcsi hdriver hmode hnode hsecret
    simp [Reconcile, hget, hopen.1, hopen.2, hkind, hpvc, hpv, hcsi, hdriver, hmode, hnode,
      hsecret, setStatus, fmt.Sprintf]
  · intro err hpvc
    simp [Reconcile, hget, hopen.1, hopen.2, hkind, hpvc, setStatus, fmt.Sprintf]

/-- A block-mode volume of this driver, reconciled on `node-b`, ends in the
status `Error`. -/
theorem lookup_or_validation_failure_is_error_witness :
    Reconcile (sampleReconciler "node-b" (sampleBackup "")
        (sampleVolume (some topolvmSource) (some "Block")) running) sampleRequest
      = (.returned { Requeue := false, RequeueAfter := 0 } (some unsupported),
          [Action.GetBackup sampleRequest.NamespacedName, Action.GetPVC ⟨"default", "data-claim"⟩,
            Action.GetPV ⟨"", "pv-1"⟩,
            Action.StatusUpdate
              { sampleBackup "" with Status :=
                  { State := topolvmv1.Error, Message := "node-b" ++ ": " ++ unsupported } }]) :=
  (lookup_or_validation_failure_is_error
      (sampleReconciler "node-b" (sampleBackup "")
        (sampleVolume (some topolvmSource) (some "Block")) running)
      sampleRequest (sampleBackup "") rfl (by decide) (by decide)).1
    sampleClaim (sampleVolume (some topolvmSource) (some "Block")) topolvmSource "Block"
    rfl rfl rfl rfl (Or.inr (by decide))

theorem Reconcile_at_owner (r : BackupReconciler) (req : Request)
    (bu : topolvmv1.Backup) (pvc : corev1.PersistentVolumeClaim)
    (pv : corev1.PersistentVolume) (csi : corev1.CSIPersistentVolumeSource)
    (secret : corev1.Secret)
    (hget : r.Client.GetBackup req.NamespacedName = .ok bu)
    (hopen : bu.Status.State ≠ topolvmv1.Error ∧ bu.Status.State ≠ topolvmv1.Complete)
    (hkind : strings.ToLower bu.Spec.Kind = "pvc")
    (hpvc : r.Client.GetPVC ⟨bu.Namespace, bu.Spec.Name⟩ = .ok pvc)
    (hpv : r.Client.GetPV ⟨"", pvc.Spec.VolumeName⟩ = .ok pv)
    (hcsi : pv.Spec.CSI = some csi)
    (hdriver : csi.Driver = "topolvm.cybozu.com")
    (hmode : pv.Spec.VolumeMode = some corev1.PersistentVolumeFilesystem)
    (hnode : volumeNode pv = some r.nodeName)
    (hsecret : r.Client.GetSecret ⟨bu.Namespace, bu.Spec.S3.Secret⟩ = .ok secret) :
    (∀ err, r.lvService (createBackupReq bu csi secret) = .error err →
      Reconcile r req
        = (.returned { Requeue := false, RequeueAfter := 0 } none,
            [Action.GetBackup req.NamespacedName, Action.GetPVC ⟨bu.Namespace, bu.Spec.Name⟩,
              Action.GetPV ⟨"", pvc.Spec.VolumeName⟩,
              Action.GetSecret ⟨bu.Namespace, bu.Spec.S3.Secret⟩,
              Action.CreateBackup (createBackupReq bu csi secret),
              Action.StatusUpdate
                { bu with Status :=
                    { State := topolvmv1.Error, Message := r.nodeName ++ ": " ++ err } }])) ∧
    (∀ name msg, r.lvService (createBackupReq bu csi secret)
        = .ok { BackupState := { Name := name, State := .INPROGRESS, Msg := msg } } →
      Reconcile r req
        = (.returned { Requeue := true, RequeueAfter := 30 * Second } none,
            [Action.GetBackup req.NamespacedName, Action.GetPVC ⟨bu.Namespace, bu.Spec.Name⟩,
              Action.GetPV ⟨"", pvc.Spec.VolumeName⟩,
              Action.GetSecret ⟨bu.Namespace, bu.Spec.S3.Secret⟩,
              Action.CreateBackup (createBackupReq bu csi secret),
              Action.StatusUpdate
                { bu with Status :=
                    { State := topolvmv1.InProgress, Message := r.nodeName ++ ": " ++ msg } }])) ∧
    (∀ name msg, r.lvService (createBackupReq bu csi secret)
        = .ok { BackupState := { Name := name, State := .ERROR, Msg := msg } } →
      Reconcile r req
        = (.returned { Requeue := false, RequeueAfter := 0 } (some msg),
            [Action.GetBackup req.NamespacedName, Action.GetPVC ⟨bu.Namespace, bu.Spec.Name⟩,
              Action.GetPV ⟨"", pvc.Spec.VolumeName⟩,
              Action.GetSecret ⟨bu.Namespace, bu.Spec.S3.Secret⟩,
              Action.CreateBackup (createBackupReq bu csi secret),
              Action.StatusUpdate
                { bu with Status :=
                    { State := topolvmv1.Error, Message := r.nodeName ++ ": " ++ msg } }])) ∧
    (∀ name msg, r.lvService (createBackupReq bu csi secret)
        = .ok { BackupState := { Name := name, State := .COMPLETE, Msg := msg } } →
      Reconcile r req
        = (.returned { Requeue := false, RequeueAfter := 0 } none,
            [Action.GetBackup req.NamespacedName, Action.GetPVC ⟨bu.Namespace, bu.Spec.Name⟩,
              Action.GetPV ⟨"", pvc.Spec.VolumeName⟩,
              Action.GetSecret ⟨bu.Namespace, bu.Spec.S3.Secret⟩,
              Action.CreateBackup (createBackupReq bu csi secret),
              Action.StatusUpdate
                { bu with Status :=
                    { State := topolvmv1.Complete, Message := r.nodeName ++ ": " ++ msg } }])) := by
  refine ⟨?_, ?_, ?_, ?_⟩
  · intro err hcall
    simp [Reconcile, hget, hopen.1, hopen.2, hkind, hpvc, hpv, hcsi, hdriver, hmode, hnode,
      hsecret, hcall, setStatus, fmt.Sprintf]
  · intro name msg hcall
    simp [Reconcile, hget, hopen.1, hopen.2, hkind, hpvc, hpv, hcsi, hdriver, hmode, hnode,
      hsecret, hcall, setStatus, fmt.Sprintf]
  · intro name msg hcall
    simp [Reconcile, hget, hopen.1, hopen.2, hkind, hpvc, hpv, hcsi, hdriver, hmode, hnode,
      hsecret, hcall, setStatus, fmt.Sprintf]
  · intro name msg hcall
    simp [Reconcile, hget, hopen.1, hopen.2, hkind, hpvc, hpv, hcsi, hdriver, hmode, hnode,
      hsecret, hcall, setStatus, fmt.Sprintf]

/-- Claim C7, at the failing input: the reconciler of the owning node reaches
the orchestrator call and the call fails; the status `Error` is written and
no requeue is requested, but `Reconcile` returns a nil error: the failure is
not surfaced as a returned error. -/
theorem failed_call_returns_nil_error :
    Reconcile (sampleReconciler "node-a" (sampleBackup "")
        (sampleVolume (some topolvmSource) (some "Filesystem"))
        (.error "connection refused")) sampleRequest
      = (.returned { Requeue := false, RequeueAfter := 0 } none,
          [Action.GetBackup sampleRequest.NamespacedName, Action.GetPVC ⟨"default", "data-claim"⟩,
            Action.GetPV ⟨"", "pv-1"⟩, Action.GetSecret ⟨"default", "s3-credentials"⟩,
            Action.CreateBackup (createBackupReq (sampleBackup "") topolvmSource sampleSecret),
            Action.StatusUpdate
              (setStatus (sampleBackup "") topolvmv1.Error "node-a: connection refused")]) := by
  decide

theorem invokesOrchestrator_iff (r : BackupReconciler) (req : Request) :
    invokesOrchestrator r req = true ↔
      ∃ bu pvc pv csi secret,
        r.Client.GetBackup req.NamespacedName = .ok bu ∧
        (bu.Status.State ≠ topolvmv1.Error ∧ bu.Status.State ≠ topolvmv1.Complete) ∧
        strings.ToLower bu.Spec.Kind = "pvc" ∧
        r.Client.GetPVC ⟨bu.Namespace, bu.Spec.Name⟩ = .ok pvc ∧
        r.Client.GetPV ⟨"", pvc.Spec.VolumeName⟩ = .ok pv ∧
        pv.Spec.CSI = some csi ∧ csi.Driver = "topolvm.cybozu.com" ∧
        pv.Spec.VolumeMode = some corev1.PersistentVolumeFilesystem ∧
        volumeNode pv = some r.nodeName ∧
        r.Client.GetSecret ⟨bu.Namespace, bu.Spec.S3.Secret⟩ = .ok secret := by
  constructor
  · intro h
    unfold invokesOrchestrator at h
    cases hget : r.Client.GetBackup req.NamespacedName with
    | error e => simp [Reconcile, hget, orchestratorCalls] at h
    | ok bu =>
    by_cases ht1 : bu.Status.State = topolvmv1.Error
    · simp [Reconcile, hget, ht1, orchestratorCalls] at h
    by_cases ht2 : bu.Status.State = topolvmv1.Complete
    · simp [Reconcile, hget, ht2, orchestratorCalls] at h
    by_cases hkind : strings.ToLower bu.Spec.Kind = "pvc"
    swap
    · simp [Reconcile, hget, ht1, ht2, hkind, orchestratorCalls] at h
    cases hpvc : r.Client.GetPVC ⟨bu.Namespace, bu.Spec.Name⟩ with
    | error e => simp [Reconcile, hget, ht1, ht2, hkind, hpvc, orchestratorCalls] at h
    | ok pvc =>
    cases hpv : r.Client.GetPV ⟨"", pvc.Spec.VolumeName⟩ with
    | error e => simp [Reconcile, hget, ht1, ht2, hkind, hpvc, hpv, orchestratorCalls] at h
    | ok pv =>
    cases hcsi : pv.Spec.CSI with
    | none => simp [Reconcile, hget, ht1, ht2, hkind, hpvc, hpv, hcsi, orchestratorCalls] at h
    | some csi =>
    by_cases hdriver : csi.Driver = "topolvm.cybozu.com"
    swap
    · cases hmode : pv.Spec.VolumeMode <;>
        simp [Reconcile, hget, ht1, ht2, hkind, hpvc, hpv, hcsi, hdriver, hmode,
          orchestratorCalls] at h
    cases hmode : pv.Spec.VolumeMode with
    | none =>
      simp [Reconcile, hget, ht1, ht2, hkind, hpvc, hpv, hcsi, hdriver, hmode,
        orchestratorCalls] at h
    | some mode =>
    by_cases hfs : mode = corev1.PersistentVolumeFilesystem
    swap
    · simp [Reconcile, hget, ht1, ht2, hkind, hpvc, hpv, hcsi, hdriver, hmode, hfs,
        orchestratorCalls] at h
    cases hnode : volumeNode pv with
    | none =>
      simp [Reconcile, hget, ht1, ht2, hkind, hpvc, hpv, hcsi, hdriver, hmode, hfs, hnode,
        orchestratorCalls] at h
    | some node =>
    by_cases hown : node = r.nodeName
    swap
    · simp [Reconcile, hget, ht1, ht2, hkind, hpvc, hpv, hcsi, hdriver, hmode, hfs, hnode,
        hown, orchestratorCalls] at h
    cases hsecret : r.Client.GetSecret ⟨bu.Namespace, bu.Spec.S3.Secret⟩ with
    | error e =>
      simp [Reconcile, hget, ht1, ht2, hkind, hpvc, hpv, hcsi, hdriver, hmode, hfs, hnode,
        hown, hsecret, orchestratorCalls] at h
    | ok secret =>
      exact ⟨bu, pvc, pv, csi, secret, rfl, ⟨ht1, ht2⟩, hkind, hpvc, hpv, hcsi, hdriver,
        hfs ▸ hmode, hown ▸ hnode, hsecret⟩
  · rintro ⟨bu, pvc, pv, csi, secret, hget, hopen, hkind, hpvc, hpv, hcsi, hdriver, hmode,
      hnode, hsecret⟩
    have hrun := Reconcile_at_owner r req bu pvc pv csi secret hget hopen hkind hpvc hpv hcsi
      hdriver hmode hnode hsecret
    unfold invokesOrchestrator
    cases hcall : r.lvService (createBackupReq bu csi secret) with
    | error err => simp [hrun.1 err hcall, orchestratorCalls]
    | ok response =>
      obtain ⟨⟨name, st, msg⟩⟩ := response
      cases st
      · simp [hrun.2.1 name msg hcall, orchestratorCalls]
      · simp [hrun.2.2.1 name msg hcall, orchestratorCalls]
      · simp [hrun.2.2.2 name msg hcall, orchestratorCalls]

theorem length_le_one_of_nodup_const {α : Type} (v : α) (l : List α) (hnodup : l.Nodup)
    (hconst : ∀ x ∈ l, x = v) : l.length ≤ 1 := by
  match l, hnodup, hconst with
  | [], _, _ => simp
  | [_], _, _ => simp
  | a :: b :: rest, hnodup, hconst =>
    have ha : a = v := hconst a (by simp)
    have hb : b = v := hconst b (by simp)
    have hne : a ≠ b := by
      intro hab
      have := (List.nodup_cons.mp hnodup).1
      exact this (by simp [hab])
    exact absurd (ha.trans hb.symm) hne

/-- Claim C6: for every set of reconcilers with pairwise distinct node names
that share one view of the cluster, at most one of them calls the
orchestrator for a given Backup, and a reconciler calls it exactly when the
Backup is non-terminal and of kind pvc, the claim, the volume and the secret
are found, the volume has the driver `topolvm.cybozu.com` and mode
`Filesystem`, and the volume's placement-constraint value is the
reconciler's node name. -/
theorem orchestrator_called_by_owner_only (c : Client) (req : Request)
    (nodes : List BackupReconciler)
    (hshared : ∀ r ∈ nodes, r.Client = c)
    (hdistinct : (nodes.map (fun r => r.nodeName)).Nodup) :
    (nodes.filter (fun r => invokesOrchestrator r req)).length ≤ 1 ∧
    (∀ r ∈ nodes, (invokesOrchestrator r req = true ↔
      ∃ bu pvc pv csi secret,
        c.GetBackup req.NamespacedName = .ok bu ∧
        (bu.Status.State ≠ topolvmv1.Error ∧ bu.Status.State ≠ topolvmv1.Complete) ∧
        strings.ToLower bu.Spec.Kind = "pvc" ∧
        c.GetPVC ⟨bu.Namespace, bu.Spec.Name⟩ = .ok pvc ∧
        c.GetPV ⟨"", pvc.Spec.VolumeName⟩ = .ok pv ∧
        pv.Spec.CSI = some csi ∧ csi.Driver = "topolvm.cybozu.com" ∧
        pv.Spec.VolumeMode = some corev1.PersistentVolumeFilesystem ∧
        volumeNode pv = some r.nodeName ∧
        c.GetSecret ⟨bu.Namespace, bu.Spec.S3.Secret⟩ = .ok secret)) := by
  have hiff : ∀ r ∈ nodes, (invokesOrchestrator r req = true ↔
      ∃ bu pvc pv csi secret,
        c.GetBackup req.NamespacedName = .ok bu ∧
        (bu.Status.State ≠ topolvmv1.Error ∧ bu.Status.State ≠ topolvmv1.Complete) ∧
        strings.ToLower bu.Spec.Kind = "pvc" ∧
        c.GetPVC ⟨bu.Namespace, bu.Spec.Name⟩ = .ok pvc ∧
        c.GetPV ⟨"", pvc.Spec.VolumeName⟩ = .ok pv ∧
        pv.Spec.CSI = some csi ∧ csi.Driver = "topolvm.cybozu.com" ∧
        pv.Spec.VolumeMode = some corev1.PersistentVolumeFilesystem ∧
        volumeNode pv = some r.nodeName ∧
        c.GetSecret ⟨bu.Namespace, bu.Spec.S3.Secret⟩ = .ok secret) := by
    intro r hr
    have h := invokesOrchestrator_iff r req
    rw [hshared r hr] at h
    exact h
  refine ⟨?_, hiff⟩
  -- every invoking reconciler carries the same node name
  have hsub : ((nodes.filter (fun r => invokesOrchestrator r req)).map
      (fun r => r.nodeName)).Nodup :=
    List.Nodup.sublist (List.Sublist.map _ (List.filter_sublist _)) hdistinct
  cases hfilter : nodes.filter (fun r => invokesOrchestrator r req) with
  | nil => simp
  | cons r0 rest =>
    have hr0 : r0 ∈ nodes.filter (fun r => invokesOrchestrator r req) := by
      rw [hfilter]; exact List.mem_cons_self _ _
    obtain ⟨hr0mem, hr0inv⟩ := List.mem_filter.mp hr0
    obtain ⟨bu0, pvc0, pv0, _, _, hget0, _, _, hpvc0, hpv0, _, _, _, hnode0, _⟩ :=
      (hiff r0 hr0mem).mp hr0inv
    have hconst : ∀ x ∈ (nodes.filter (fun r => invokesOrchestrator r req)).map
        (fun r => r.nodeName), x = r0.nodeName := by
      intro x hx
      obtain ⟨r1, hr1, rfl⟩ := List.mem_map.mp hx
      obtain ⟨hr1mem, hr1inv⟩ := List.mem_filter.mp hr1
      obtain ⟨bu1, pvc1, pv1, _, _, hget1, _, _, hpvc1, hpv1, _, _, _, hnode1, _⟩ :=
        (hiff r1 hr1mem).mp hr1inv
      rw [hget0] at hget1
      cases hget1
      rw [hpvc0] at hpvc1
      cases hpvc1
      rw [hpv0] at hpv1
      cases hpv1
      rw [hnode0] at hnode1
      exact (Option.some.inj hnode1).symm
    have hlen := length_le_one_of_nodup_const r0.nodeName _ hsub hconst
    rw [hfilter] at hlen
    simpa using hlen

/-- Witness for claim C6: the reconcilers of `node-a` and `node-b` over one
cluster whose volume is placed on `node-a`. -/
theorem orchestrator_called_by_owner_only_witness :
    ([sampleReconciler "node-a" (sampleBackup "")
        (sampleVolume (some topolvmSource) (some "Filesystem")) running,
      sampleReconciler "node-b" (sampleBackup "")
        (sampleVolume (some topolvmSource) (some "Filesystem")) running].filter
      (fun r => invokesOrchestrator r sampleRequest)).length ≤ 1 :=
  (orchestrator_called_by_owner_only
    (sampleClient (sampleBackup "") (sampleVolume (some topolvmSource) (some "Filesystem")))
    sampleRequest
    [sampleReconciler "node-a" (sampleBackup "")
        (sampleVolume (some topolvmSource) (some "Filesystem")) running,
      sampleReconciler "node-b" (sampleBackup "")
        (sampleVolume (some topolvmSource) (some "Filesystem")) running]
    (by
      intro r hr
      simp only [List.mem_cons, List.mem_singleton, List.not_mem_nil, or_false] at hr
      rcases hr with h | h <;> rw [h] <;> rfl)
    (by decide)).1

end controllers
